import Mathlib

/-!
Verification of the statistics core of the `iot_web_app` repository
(`iot_statistics` package): the query spec builders and row decoder of
`model/stat_input_probe.py`, the generator façade of `model/stat_generator.py`,
and the regrouping view engine of `view/stat_view.py`, shallowly embedded as
executable Lean definitions.
-/

namespace IotStats

/-- A column value as it appears in a SQLite result row or a statistics
record: Python ints, floats (modelled as rationals; the claims only touch
values that are exactly representable) and strings. -/
inductive Value where
  | vInt (n : Int)
  | vFloat (q : Rat)
  | vStr (s : String)
deriving DecidableEq

/-- Left-pad a string with zeros to the given width. -/
def padLeft (width : Nat) (s : String) : String :=
  if s.length < width then String.mk (List.replicate (width - s.length) '0') ++ s else s

/-- Render a nonnegative rational with exactly 5 fractional digits, as Python
`f"{value:.5f}"` does on an exactly representable nonnegative float: the value
is scaled by `10^5` and rounded to an integer (`⌊q*100000 + 1/2⌋`, computed on
the numerator and denominator directly; rounding ties are irrelevant for every
value the claims use). -/
def formatFixed5Pos (q : Rat) : String :=
  let scaled : Int := (2 * q.num * 100000 + (q.den : Int)) / (2 * (q.den : Int))
  toString (scaled / 100000) ++ "." ++ padLeft 5 (toString (scaled % 100000).toNat)

/-- Render a rational with exactly 5 fractional digits (`f"{value:.5f}"`). -/
def formatFixed5 (q : Rat) : String :=
  if q < 0 then "-" ++ formatFixed5Pos (-q) else formatFixed5Pos q

/-- `InputProbeStatisticsView._str_value`: integers render as plain decimal,
floats with exactly 5 fractional digits, other values pass through. -/
def str_value : Value → String
  | .vInt n => toString n
  | .vFloat q => formatFixed5 q
  | .vStr s => s

/-- A calendar date, as passed to the query builders (`datetime.date`). -/
structure Date where
  year : Nat
  month : Nat
  day : Nat
deriving DecidableEq

/-- `eval_date.strftime('%Y-%m-%d')`. -/
def Date.strftime_ymd (d : Date) : String :=
  padLeft 4 (toString d.year) ++ "-" ++ padLeft 2 (toString d.month) ++ "-" ++ padLeft 2 (toString d.day)

/-- Modelled from the external `wp_repository.SQLStatement` collaborator: a
query is a text accumulated by successive `append_text` calls plus an ordered
bound-parameter list accumulated by `append_param`. -/
structure SQLStatement where
  stmt_text : String
  stmt_params : List String
deriving DecidableEq

/-- `wp_repository.SQLStatement.append_text`: appends to the statement text. -/
def SQLStatement.append_text (q : SQLStatement) (s : String) : SQLStatement :=
  { q with stmt_text := q.stmt_text ++ s }

/-- `wp_repository.SQLStatement.append_param`: appends one bound parameter. -/
def SQLStatement.append_param (q : SQLStatement) (p : String) : SQLStatement :=
  { q with stmt_params := q.stmt_params ++ [p] }

/-- The interpolated sub-hour grouping fragment the three trend builders emit
when `by_min != 0` (lines 130-132, 186-188, 251-253 of `stat_input_probe.py`). -/
def minuteBucketFragment (by_min : Nat) : String :=
  let s_prtm_full := "strftime('%s',datetime(probe_time))"
  let s_prtm_hour := "strftime('%s',datetime(strftime('%Y-%m-%d %H:00:00',datetime(probe_time))))"
  s!"{by_min}*((({s_prtm_full}-{s_prtm_hour})/60)/{by_min}) as grp_min, "

/-- Integer-arithmetic semantics of `minuteBucketFragment` on a timestamp given
as epoch seconds: SQLite's `strftime('%s',...)` of the timestamp minus that of
the timestamp floored to its hour, integer-divided by 60 and floor-divided into
`by_min` bins, scaled back: `by_min*(((full-hour)/60)/by_min)`. -/
def grp_min_expr (by_min : Nat) (t : Nat) : Nat :=
  by_min * (((t - (t - t % 3600)) / 60) / by_min)

/-- `InputProbeStatistics.trend_overall`: SQL for the overall daily trend. -/
def trend_overall (eval_date : Date) (by_min : Nat) (eval_target : String) : SQLStatement :=
  let query : SQLStatement := { stmt_text := "SELECT 't01' AS res_type, date(probe_time) as eval_date, ", stmt_params := [] }
  let query := query.append_text "strftime('%H',datetime(probe_time)) as grp_hour, "
  let query := query.append_text (if by_min = 0 then "0 as grp_min, " else minuteBucketFragment by_min)
  let query := query.append_text "COUNT(1) AS num_res, "
  let query := query.append_text s!"MIN({eval_target}) AS min_res, MAX({eval_target}) AS max_res, "
  let query := query.append_text s!"AVG(ALL {eval_target}) AS avg_res "
  let query := query.append_text "FROM iot_recorder_input_probe "
  let query := query.append_text "WHERE date(probe_time) = ? "
  let query := query.append_text "GROUP BY res_type, eval_date, grp_hour, grp_min "
  let query := query.append_text "ORDER BY res_type, eval_date, grp_hour, grp_min"
  { query with stmt_params := [eval_date.strftime_ymd] }

/-- `InputProbeStatistics.trend_entity`: SQL for the daily trend by device. -/
def trend_entity (eval_date : Date) (entity_id : Option String) (by_min : Nat)
    (eval_target : String) : SQLStatement :=
  let query : SQLStatement := { stmt_text := "SELECT 't02' AS res_type, date(probe_time) as eval_date, ", stmt_params := [] }
  let query := query.append_text "strftime('%H',datetime(probe_time)) as grp_hour, "
  let query := query.append_text (if by_min = 0 then "0 as grp_min, " else minuteBucketFragment by_min)
  let query := query.append_text "device_id, COUNT(1) AS num_res, "
  let query := query.append_text s!"MIN({eval_target}) AS min_res, MAX({eval_target}) AS max_res, "
  let query := query.append_text s!"AVG(ALL {eval_target}) AS avg_res "
  let query := query.append_text "FROM iot_recorder_input_probe "
  let query := query.append_text "WHERE date(probe_time) = ? "
  let query := query.append_text (match entity_id with | none => "" | some _ => " AND device_id = ? ")
  let query := query.append_text "GROUP BY res_type, device_id, eval_date, grp_hour, grp_min "
  let query := query.append_text "ORDER BY res_type, device_id, eval_date, grp_hour, grp_min"
  let query := { query with stmt_params := [eval_date.strftime_ymd] }
  match entity_id with
  | none => query
  | some e => query.append_param e

/-- `InputProbeStatistics.trend_sub_entity`: SQL for the daily trend by device
input channel. -/
def trend_sub_entity (eval_date : Date) (entity_id : Option String)
    (sub_entity_id : Option String) (by_min : Nat) (eval_target : String) : SQLStatement :=
  let query : SQLStatement := { stmt_text := "SELECT 't03' AS res_type, date(probe_time) as eval_date, ", stmt_params := [] }
  let query := query.append_text "strftime('%H',datetime(probe_time)) as grp_hour, "
  let query := query.append_text (if by_min = 0 then "0 as grp_min, " else minuteBucketFragment by_min)
  let query := query.append_text "device_id, channel_no, COUNT(1) AS num_res, "
  let query := query.append_text s!"MIN({eval_target}) AS min_res, MAX({eval_target}) AS max_res, "
  let query := query.append_text s!"AVG(ALL {eval_target}) AS avg_res "
  let query := query.append_text "FROM iot_recorder_input_probe "
  let query := query.append_text "WHERE date(probe_time) = ? "
  let query := query.append_text (match entity_id with | none => "" | some _ => " AND device_id = ? ")
  let query := query.append_text (match sub_entity_id with | none => "" | some _ => " AND channel_no = ? ")
  let query := query.append_text "GROUP BY res_type, device_id, channel_no, eval_date, grp_hour, grp_min "
  let query := query.append_text "ORDER BY res_type, device_id, channel_no, eval_date, grp_hour, grp_min"
  let query := { query with stmt_params := [eval_date.strftime_ymd] }
  let query := match entity_id with | none => query | some e => query.append_param e
  match sub_entity_id with
  | none => query
  | some s => query.append_param s

/-- `InputProbeStatistics.entity_list`: SQL for the distinct device list. -/
def entity_list_query (eval_date : Date) : SQLStatement :=
  let query : SQLStatement := { stmt_text := "SELECT DISTINCT 't09' as res_type, date(probe_time) AS probe_date, ", stmt_params := [] }
  let query := query.append_text "device_id FROM iot_recorder_input_probe WHERE date(probe_time) = ? ORDER BY device_id"
  { query with stmt_params := [eval_date.strftime_ymd] }

/-- `IotStatisticsGenerator.overall_trend`, query-construction part: selects
the builder by the grouping flags (execution is the external repository
collaborator and out of the model). The generator never passes a filter. -/
def overall_trend (eval_target : String) (eval_date : Date) (by_min : Nat)
    (by_entity : Bool) (by_sub_entity : Bool) : SQLStatement :=
  if !by_entity then trend_overall eval_date by_min eval_target
  else if !by_sub_entity then trend_entity eval_date none by_min eval_target
  else trend_sub_entity eval_date none none by_min eval_target

/-- `IotStatisticsGenerator.sub_entity_values`, query-construction part. -/
def sub_entity_values (entity_id : String) (eval_target : String) (eval_date : Date)
    (by_min : Nat) : SQLStatement :=
  trend_sub_entity eval_date (some entity_id) none by_min eval_target

/-- `InputProbeStatistics`: the decoded statistics record. Every field starts
out unset (`None` in `__init__`), hence the `Option` types. -/
structure InputProbeStatistics where
  probe_date : Option Value
  probe_hour : Option Value
  probe_min : Option Value
  device_id : Option Value
  channel_no : Option Value
  count : Option Value
  minimum : Option Value
  maximum : Option Value
  average : Option Value
deriving DecidableEq

/-- `InputProbeStatistics.__init__`: all fields `None`. -/
def InputProbeStatistics.init : InputProbeStatistics :=
  ⟨none, none, none, none, none, none, none, none, none⟩

/-- `InputProbeStatistics._load_row_t01` (row of `trend_overall`). Row cells
are read positionally; a cell beyond the row's length stays unset (the Python
would raise IndexError there, which no claim exercises). -/
def load_row_t01 (self : InputProbeStatistics) (cursor_row : List Value) : InputProbeStatistics :=
  { self with
    probe_date := cursor_row.get? 1
    probe_hour := cursor_row.get? 2
    probe_min := cursor_row.get? 3
    count := cursor_row.get? 4
    minimum := cursor_row.get? 5
    maximum := cursor_row.get? 6
    average := cursor_row.get? 7 }

/-- `InputProbeStatistics._load_row_t02` (row of `trend_entity`). -/
def load_row_t02 (self : InputProbeStatistics) (cursor_row : List Value) : InputProbeStatistics :=
  { self with
    probe_date := cursor_row.get? 1
    probe_hour := cursor_row.get? 2
    probe_min := cursor_row.get? 3
    device_id := cursor_row.get? 4
    count := cursor_row.get? 5
    minimum := cursor_row.get? 6
    maximum := cursor_row.get? 7
    average := cursor_row.get? 8 }

/-- `InputProbeStatistics._load_row_t03` (row of `trend_sub_entity`). -/
def load_row_t03 (self : InputProbeStatistics) (cursor_row : List Value) : InputProbeStatistics :=
  { self with
    probe_date := cursor_row.get? 1
    probe_hour := cursor_row.get? 2
    probe_min := cursor_row.get? 3
    device_id := cursor_row.get? 4
    channel_no := cursor_row.get? 5
    count := cursor_row.get? 6
    minimum := cursor_row.get? 7
    maximum := cursor_row.get? 8
    average := cursor_row.get? 9 }

/-- `InputProbeStatistics._load_row_t09` (row of `entity_list`). -/
def load_row_t09 (self : InputProbeStatistics) (cursor_row : List Value) : InputProbeStatistics :=
  { self with
    probe_date := cursor_row.get? 1
    probe_hour := some (.vInt 0)
    probe_min := some (.vInt 0)
    device_id := cursor_row.get? 2
    channel_no := some (.vInt 0)
    count := some (.vInt 0)
    minimum := some (.vInt 0)
    maximum := some (.vInt 0)
    average := some (.vInt 0) }

/-- `InputProbeStatistics.load_row`: dispatches on the shape tag in the row's
first column; a tag that is none of `t01`/`t02`/`t03`/`t09` falls through all
branches and the method returns with the record untouched. -/
def load_row (self : InputProbeStatistics) (cursor_row : List Value) : InputProbeStatistics :=
  let res_type := cursor_row.getD 0 (.vStr "")
  if res_type = .vStr "t01" then load_row_t01 self cursor_row
  else if res_type = .vStr "t02" then load_row_t02 self cursor_row
  else if res_type = .vStr "t03" then load_row_t03 self cursor_row
  else if res_type = .vStr "t09" then load_row_t09 self cursor_row
  else self

/-! ## The regrouping view engine (`view/stat_view.py`)

The view consumes a list of loaded records through the attributes it reads:
`probe_hour`, `probe_min`, `entity_id` (= `device_id`), `sub_entity_printable`
(= `f"Channel: \x7bchannel_no:02d\x7d"`), `minimum`, `maximum`, `average`. -/

/-- A loaded statistics record as the view engine reads it. -/
structure ViewRecord where
  probe_hour : Int
  probe_min : Int
  device_id : String
  channel_no : Int
  minimum : Value
  maximum : Value
  average : Value
deriving DecidableEq

/-- `InputProbeStatistics.entity_id` property: maps to `device_id`. -/
def ViewRecord.entity_id (r : ViewRecord) : String := r.device_id

/-- Python `f"{n:02d}"`: decimal rendering left-padded to width 2. -/
def pad2 (n : Int) : String := padLeft 2 (toString n)

/-- `InputProbeStatistics.sub_entity_printable` property:
`f"Channel: {channel_no:02d}"`. -/
def ViewRecord.sub_entity_printable (r : ViewRecord) : String :=
  "Channel: " ++ pad2 r.channel_no

/-- `InputProbeStatisticsView._line_colors`: the fixed 12-entry palette. -/
def line_colors : List String :=
  ["#ff0000", "#00ff00", "#0000ff",
   "#ffff00", "#ff00ff", "#00ffff",
   "#ff007f", "#7f00ff", "#00ff7f",
   "#ff7f00", "#7fff00", "#007fff"]

/-- `InputProbeStatisticsView._color_names[name]` for the three series names. -/
def color_names (name : String) : String :=
  if name = "Minimum" then "#99ff99"
  else if name = "Maximum" then "#ff9999"
  else "#99ccff"

/-- One ChartJs data set as the view builds it. -/
structure DataSet where
  label : String
  data : String
  borderColor : String
deriving DecidableEq

/-- One chart as the view builds it: a sequential id plus its data sets. -/
structure Chart where
  chartId : Nat
  dataSets : List DataSet
deriving DecidableEq

/-- One x-axis label entry as the `labels` property builds it. -/
structure LabelEntry where
  separator : String
  label : String
deriving DecidableEq

/-- The `"HH:MM"` label of one record (`f"{int(h):02}:{int(m):02}"`). -/
def recordLabel (r : ViewRecord) : String :=
  pad2 r.probe_hour ++ ":" ++ pad2 r.probe_min

/-- First loop of the `labels` property: append each record's `"HH:MM"` label
unless it already occurs anywhere in the accumulated list. -/
def labelStringsGo (acc : List String) : List ViewRecord → List String
  | [] => acc
  | r :: rest =>
      let lbl := recordLabel r
      if lbl ∈ acc then labelStringsGo acc rest else labelStringsGo (acc ++ [lbl]) rest

/-- The deduplicated label strings of the `labels` property. -/
def labelStrings (data : List ViewRecord) : List String :=
  labelStringsGo [] data

/-- Second loop of the `labels` property: pair each label with a separator,
empty for the first and `","` for the rest. -/
def labelsSepGo (sep : String) : List String → List LabelEntry
  | [] => []
  | lbl :: rest => ⟨sep, lbl⟩ :: labelsSepGo "," rest

/-- `InputProbeStatisticsView.labels` (computed afresh on every access). -/
def labels (data : List ViewRecord) : List LabelEntry :=
  labelsSepGo "" (labelStrings data)

/-- `InputProbeStatisticsView._entity_list`: order-preserving deduplication of
the records' entity ids. -/
def entity_list_go (acc : List String) : List ViewRecord → List String
  | [] => acc
  | r :: rest =>
      if r.entity_id ∈ acc then entity_list_go acc rest
      else entity_list_go (acc ++ [r.entity_id]) rest

/-- `InputProbeStatisticsView._entity_list`. -/
def entity_list (data : List ViewRecord) : List String :=
  entity_list_go [] data

/-- `','.join`. -/
def joinComma (l : List String) : String := String.intercalate "," l

/-- `InputProbeStatisticsView.minima`: comma-joined minimum values. -/
def minima (data : List ViewRecord) : String :=
  joinComma (data.map (fun r => str_value r.minimum))

/-- `InputProbeStatisticsView.maxima`: comma-joined maximum values. -/
def maxima (data : List ViewRecord) : String :=
  joinComma (data.map (fun r => str_value r.maximum))

/-- `InputProbeStatisticsView.averages`: comma-joined average values. -/
def averages (data : List ViewRecord) : String :=
  joinComma (data.map (fun r => str_value r.average))

/-- The attribute name `_aggregate_by_entity` receives (`getattr` selector). -/
inductive AggField where
  | minimum
  | maximum
  | average
deriving DecidableEq

/-- `getattr(data_elem, aggregate)` for the three attribute names used. -/
def getAgg (r : ViewRecord) : AggField → Value
  | .minimum => r.minimum
  | .maximum => r.maximum
  | .average => r.average

/-- Loop of `InputProbeStatisticsView._aggregate_by_entity`: break-on-change
over `entity_id`, flushing one data set per run with the next palette color
(the source indexes `_line_colors[ds_no]` directly; past the palette's end it
would raise, which no claim exercises) and collecting each flushed run's
entity id into `self._entities`. An open run with empty `entity_id` is never
flushed. -/
def aggregate_go (agg : AggField) (entity_id : String) (e_data_list : List String)
    (ds_no : Nat) (data_sets : List DataSet) (ents : List String) :
    List ViewRecord → List DataSet × List String
  | [] =>
      if entity_id.length > 0 then
        (data_sets ++ [⟨entity_id, joinComma e_data_list, line_colors.getD ds_no ""⟩],
         ents ++ [entity_id])
      else (data_sets, ents)
  | r :: rest =>
      if r.entity_id ≠ entity_id then
        if entity_id.length > 0 then
          aggregate_go agg r.entity_id [str_value (getAgg r agg)] (ds_no + 1)
            (data_sets ++ [⟨entity_id, joinComma e_data_list, line_colors.getD ds_no ""⟩])
            (ents ++ [entity_id]) rest
        else
          aggregate_go agg r.entity_id [str_value (getAgg r agg)] ds_no data_sets ents rest
      else
        aggregate_go agg entity_id (e_data_list ++ [str_value (getAgg r agg)]) ds_no
          data_sets ents rest

/-- `InputProbeStatisticsView._aggregate_by_entity`: returns the data sets and
the entity list it assigns to `self._entities` as a side effect. -/
def aggregate_by_entity (data : List ViewRecord) (agg : AggField) :
    List DataSet × List String :=
  aggregate_go agg "" [] 0 [] [] data

/-- Python `dict` assignment `d[k] = v` on an insertion-ordered dictionary,
modelled on an association list: update in place if the key exists, append
otherwise. -/
def dictInsert (l : List (String × Chart)) (k : String) (v : Chart) : List (String × Chart) :=
  if l.any (fun p => p.1 = k) then l.map (fun p => if p.1 = k then (k, v) else p)
  else l ++ [(k, v)]

/-- The three-series chart both by-entity and by-sub-entity trends flush: one
Minimum, one Average and one Maximum data set with their fixed colors. -/
def mkTrendChart (chart_no : Nat) (mins avgs maxs : List String) : Chart :=
  ⟨chart_no,
   [⟨"Minimum", joinComma mins, color_names "Minimum"⟩,
    ⟨"Average", joinComma avgs, color_names "Average"⟩,
    ⟨"Maximum", joinComma maxs, color_names "Maximum"⟩]⟩

/-- Loop of `InputProbeStatisticsView.trends_by_entity` (lines 149-169):
break-on-change over `entity_id`, flushing the accumulated three series as one
chart per run; runs with empty `entity_id` are never flushed. -/
def trends_go (entity_id : String) (e_min_list e_avg_list e_max_list : List String)
    (chart_no : Nat) (out : List (String × Chart)) :
    List ViewRecord → List (String × Chart)
  | [] =>
      if entity_id.length > 0 then
        dictInsert out entity_id (mkTrendChart chart_no e_min_list e_avg_list e_max_list)
      else out
  | r :: rest =>
      if r.entity_id ≠ entity_id then
        if entity_id.length > 0 then
          trends_go r.entity_id [str_value r.minimum] [str_value r.average]
            [str_value r.maximum] (chart_no + 1)
            (dictInsert out entity_id (mkTrendChart chart_no e_min_list e_avg_list e_max_list))
            rest
        else
          trends_go r.entity_id [str_value r.minimum] [str_value r.average]
            [str_value r.maximum] chart_no out rest
      else
        trends_go entity_id (e_min_list ++ [str_value r.minimum])
          (e_avg_list ++ [str_value r.average]) (e_max_list ++ [str_value r.maximum])
          chart_no out rest

/-- `InputProbeStatisticsView.trends_by_entity`, the computation performed on
a cache miss. -/
def trends_by_entity_pure (data : List ViewRecord) : List (String × Chart) :=
  trends_go "" [] [] [] 1 [] data

/-- Loop of `InputProbeStatisticsView.trends_by_sub_entity` (lines 195-215):
identical break-on-change but keyed by `sub_entity_printable`. -/
def values_per_sub_go (sub_entity_prn_id : String)
    (s_min_list s_avg_list s_max_list : List String) (chart_no : Nat)
    (out : List (String × Chart)) : List ViewRecord → List (String × Chart)
  | [] =>
      if sub_entity_prn_id.length > 0 then
        dictInsert out sub_entity_prn_id (mkTrendChart chart_no s_min_list s_avg_list s_max_list)
      else out
  | r :: rest =>
      if r.sub_entity_printable ≠ sub_entity_prn_id then
        if sub_entity_prn_id.length > 0 then
          values_per_sub_go r.sub_entity_printable [str_value r.minimum]
            [str_value r.average] [str_value r.maximum] (chart_no + 1)
            (dictInsert out sub_entity_prn_id
              (mkTrendChart chart_no s_min_list s_avg_list s_max_list)) rest
        else
          values_per_sub_go r.sub_entity_printable [str_value r.minimum]
            [str_value r.average] [str_value r.maximum] chart_no out rest
      else
        values_per_sub_go sub_entity_prn_id (s_min_list ++ [str_value r.minimum])
          (s_avg_list ++ [str_value r.average]) (s_max_list ++ [str_value r.maximum])
          chart_no out rest

/-- `InputProbeStatisticsView.trends_by_sub_entity`, the computation performed
on a cache miss (cached in `self._values_per_sub`). -/
def values_per_sub_pure (data : List ViewRecord) : List (String × Chart) :=
  values_per_sub_go "" [] [] [] 1 [] data

/-- `f"{data_elem.average:.5f}"` as used on line 275 of `stat_view.py` (the
Python float format; a string value there would raise, which no claim
exercises). -/
def format_f5 : Value → String
  | .vInt n => formatFixed5 (n : Rat)
  | .vFloat q => formatFixed5 q
  | .vStr s => s

/-- Loop of `InputProbeStatisticsView.subs_by_entity` (lines 244-277),
transcribed branch by branch. On an entity break the sub-entity break is
handled first (lines 246-254) and the entity flush second (lines 256-266) —
the flush therefore reads the sub-entity variables as already updated for the
incoming record. -/
def subs_go (entity_id sub_entity_prn_id : String) (e_data_sets : List DataSet)
    (sub_avg_list : List String) (chart_no sub_no : Nat)
    (out : List (String × Chart)) : List ViewRecord → List (String × Chart)
  | [] =>
      if entity_id.length > 0 then
        let e_data_sets :=
          if sub_entity_prn_id.length > 0 then
            e_data_sets ++ [⟨sub_entity_prn_id, joinComma sub_avg_list, line_colors.getD sub_no ""⟩]
          else e_data_sets
        dictInsert out entity_id ⟨chart_no, e_data_sets⟩
      else out
  | r :: rest =>
      if r.entity_id ≠ entity_id then
        let step :=
          if r.sub_entity_printable ≠ sub_entity_prn_id then
            (r.sub_entity_printable, [str_value r.average],
             (if sub_entity_prn_id.length > 0 then
                e_data_sets ++ [⟨sub_entity_prn_id, joinComma sub_avg_list, line_colors.getD sub_no ""⟩]
              else e_data_sets),
             (if sub_entity_prn_id.length > 0 then (sub_no + 1) % line_colors.length else sub_no))
          else (sub_entity_prn_id, sub_avg_list ++ [str_value r.average], e_data_sets, sub_no)
        if entity_id.length > 0 then
          let flushed :=
            if step.1.length > 0 then
              step.2.2.1 ++ [⟨step.1, joinComma step.2.1, line_colors.getD step.2.2.2 ""⟩]
            else step.2.2.1
          subs_go r.entity_id step.1 [] step.2.1 (chart_no + 1) 0
            (dictInsert out entity_id ⟨chart_no, flushed⟩) rest
        else
          subs_go r.entity_id step.1 step.2.2.1 step.2.1 chart_no step.2.2.2 out rest
      else
        if r.sub_entity_printable ≠ sub_entity_prn_id then
          subs_go entity_id r.sub_entity_printable
            (if sub_entity_prn_id.length > 0 then
               e_data_sets ++ [⟨sub_entity_prn_id, joinComma sub_avg_list, line_colors.getD sub_no ""⟩]
             else e_data_sets)
            [format_f5 r.average] chart_no
            (if sub_entity_prn_id.length > 0 then (sub_no + 1) % line_colors.length else sub_no)
            out rest
        else
          subs_go entity_id sub_entity_prn_id e_data_sets
            (sub_avg_list ++ [str_value r.average]) chart_no sub_no out rest

/-- `InputProbeStatisticsView.subs_by_entity`, the computation performed on a
cache miss. -/
def subs_by_entity_pure (data : List ViewRecord) : List (String × Chart) :=
  subs_go "" "" [] [] 1 0 [] data

/-- The mutable state of one `InputProbeStatisticsView` instance: the input
data plus the four cache attributes set in `__init__` (all `None`), and an
instrumentation counter recording how many times a full pass over `_data` was
performed (one per cache miss / uncached access). -/
structure ViewState where
  data : List ViewRecord
  entitiesCache : Option (List String)
  trendsByEntityCache : Option (List (String × Chart))
  subsByEntityCache : Option (List (String × Chart))
  valuesPerSubCache : Option (List (String × Chart))
  computations : Nat
deriving DecidableEq

/-- `InputProbeStatisticsView.__init__`: stores the data, all caches `None`. -/
def initView (input_probe_stat : List ViewRecord) : ViewState :=
  ⟨input_probe_stat, none, none, none, none, 0⟩

/-- Property access `self.entities`: computes `_entity_list` only when
`self._entities is None`, then returns the cache. -/
def entities_acc (s : ViewState) : List String × ViewState :=
  match s.entitiesCache with
  | some e => (e, s)
  | none =>
      let e := entity_list s.data
      (e, { s with entitiesCache := some e, computations := s.computations + 1 })

/-- Property access `self.minima_by_entity`: no cache check — every access
runs `_aggregate_by_entity('minimum')`, which reassigns `self._entities`. -/
def minima_by_entity_acc (s : ViewState) : List DataSet × ViewState :=
  let r := aggregate_by_entity s.data .minimum
  (r.1, { s with entitiesCache := some r.2, computations := s.computations + 1 })

/-- Property access `self.maxima_by_entity`: uncached, reassigns `_entities`. -/
def maxima_by_entity_acc (s : ViewState) : List DataSet × ViewState :=
  let r := aggregate_by_entity s.data .maximum
  (r.1, { s with entitiesCache := some r.2, computations := s.computations + 1 })

/-- Property access `self.averages_by_entity`: uncached, reassigns `_entities`. -/
def averages_by_entity_acc (s : ViewState) : List DataSet × ViewState :=
  let r := aggregate_by_entity s.data .average
  (r.1, { s with entitiesCache := some r.2, computations := s.computations + 1 })

/-- Property access `self.trends_by_entity`: returns the cache when it is not
`None`, otherwise computes and stores it. -/
def trends_by_entity_acc (s : ViewState) : List (String × Chart) × ViewState :=
  match s.trendsByEntityCache with
  | some t => (t, s)
  | none =>
      let t := trends_by_entity_pure s.data
      (t, { s with trendsByEntityCache := some t, computations := s.computations + 1 })

/-- Property access `self.trends_by_sub_entity` (cached in `_values_per_sub`). -/
def trends_by_sub_entity_acc (s : ViewState) : List (String × Chart) × ViewState :=
  match s.valuesPerSubCache with
  | some t => (t, s)
  | none =>
      let t := values_per_sub_pure s.data
      (t, { s with valuesPerSubCache := some t, computations := s.computations + 1 })

/-- Property access `self.subs_by_entity`. -/
def subs_by_entity_acc (s : ViewState) : List (String × Chart) × ViewState :=
  match s.subsByEntityCache with
  | some t => (t, s)
  | none =>
      let t := subs_by_entity_pure s.data
      (t, { s with subsByEntityCache := some t, computations := s.computations + 1 })

/-! ## Spec-side reference definitions (for refinement comparisons only) -/

/-- Reference definition following the spec's words for label extraction: a
`"HH:MM"` pair is skipped exactly when it equals the most recently seen
distinct label (run-length compression). Used only to compare against the
source-derived `labelStrings`. -/
def runLengthLabelsGo (last : Option String) : List ViewRecord → List String
  | [] => []
  | r :: rest =>
      let l := recordLabel r
      if some l = last then runLengthLabelsGo last rest
      else l :: runLengthLabelsGo (some l) rest

/-- Reference run-length label compression, following the spec's words. -/
def runLengthLabels (data : List ViewRecord) : List String :=
  runLengthLabelsGo none data

/-- The fields of the §3 ordering invariant. -/
inductive SpecField where
  | entity_id
  | sub_entity_id
  | probe_date
  | hour
  | minute_bucket
deriving DecidableEq

/-- The §3 ordering invariant: `(entity_id, sub_entity_id, probe_date, hour,
minute_bucket)` ascending. -/
def sec3OrderKey : List SpecField :=
  [.entity_id, .sub_entity_id, .probe_date, .hour, .minute_bucket]

/-- The three grouping levels of the Query Spec Builder. -/
inductive GroupingLevel where
  | overall
  | by_entity
  | by_entity_and_sub_entity
deriving DecidableEq

/-- Which §3 fields are present at a grouping level (absent fields sort first,
i.e. drop out of the effective order key). -/
def fieldPresent : GroupingLevel → SpecField → Bool
  | .overall, .entity_id => false
  | .overall, .sub_entity_id => false
  | .by_entity, .sub_entity_id => false
  | _, _ => true

/-- Correspondence between the queries' result columns and the §3 fields; the
constant shape-tag column `res_type` (the literal `t01`/`t02`/`t03` selected in
every row of one query) carries no ordering information. -/
def colToSpecField (c : String) : Option SpecField :=
  if c = "device_id" then some .entity_id
  else if c = "channel_no" then some .sub_entity_id
  else if c = "eval_date" then some .probe_date
  else if c = "grp_hour" then some .hour
  else if c = "grp_min" then some .minute_bucket
  else none

/-- The ORDER BY column list of `trend_overall` (line 139). -/
def overallOrderCols : List String := ["res_type", "eval_date", "grp_hour", "grp_min"]

/-- The ORDER BY column list of `trend_entity` (line 196). -/
def entityOrderCols : List String := ["res_type", "device_id", "eval_date", "grp_hour", "grp_min"]

/-- The ORDER BY column list of `trend_sub_entity` (line 262). -/
def subEntityOrderCols : List String :=
  ["res_type", "device_id", "channel_no", "eval_date", "grp_hour", "grp_min"]

/-! ## Claims -/

/-- Claim C1, counterexample: a row tagged `t99` (not one of `t01`, `t02`,
`t03`, `t09`) does not yield a decoding failure — `load_row` returns normally
and leaves every field of the freshly constructed record unset (`None`). -/
theorem C1_counterexample :
    load_row InputProbeStatistics.init
        [.vStr "t99", .vStr "2021-07-03", .vStr "07", .vInt 0, .vInt 5,
         .vInt 1, .vInt 9, .vFloat 4] = InputProbeStatistics.init ∧
      InputProbeStatistics.init.device_id = none ∧
      InputProbeStatistics.init.minimum = none := by
  refine ⟨?_, rfl, rfl⟩
  rfl

/-- Claim C1, amended: for every raw result row whose shape tag (first column)
is not one of the recognized tags `t01`, `t02`, `t03`, `t09`, `load_row`
silently falls through all dispatch branches and returns the record unchanged
(its fields stay unset); no `UnknownResultShape` failure exists in the code. -/
theorem C1_unknown_tag_noop (self : InputProbeStatistics) (cursor_row : List Value)
    (h : cursor_row.getD 0 (.vStr "") ∉
      ([.vStr "t01", .vStr "t02", .vStr "t03", .vStr "t09"] : List Value)) :
    load_row self cursor_row = self := by
  simp only [List.mem_cons, List.not_mem_nil, or_false, not_or] at h
  obtain ⟨h1, h2, h3, h4⟩ := h
  cases cursor_row with
  | nil => rfl
  | cons c rest =>
      simp only [List.getD, List.get?, Option.getD] at h1 h2 h3 h4
      simp [load_row, List.getD, h1, h2, h3, h4]

/-- Claim C1, witness for the amended theorem at the `t99` row. -/
theorem C1_unknown_tag_noop_witness :
    load_row ⟨none, none, none, none, none, none, none, none, none⟩
        [.vStr "t99", .vStr "2021-07-03", .vStr "07", .vInt 0, .vInt 5,
         .vInt 1, .vInt 9, .vFloat 4] =
      ⟨none, none, none, none, none, none, none, none, none⟩ :=
  C1_unknown_tag_noop _ _ (by decide)

/-- Claim C6: on the three records `(entity "A", min 1, max 3, avg 2.0)`,
`(entity "A", min 2, max 4, avg 3.0)`, `(entity "B", min 0, max 0, avg 0.0)`,
the grouped-by-entity view has exactly the two groups "A" and "B" with chart
ids 1 and 2 in that order; group "A" has minima series `"1,2"` and averages
series `"2.00000,3.00000"` (integers render plain, floats with exactly 5
fractional digits). -/
theorem C6_concrete_trends :
    trends_by_entity_pure
        [⟨10, 0, "A", 0, .vInt 1, .vInt 3, .vFloat 2⟩,
         ⟨10, 0, "A", 0, .vInt 2, .vInt 4, .vFloat 3⟩,
         ⟨11, 0, "B", 0, .vInt 0, .vInt 0, .vFloat 0⟩] =
      [("A", ⟨1, [⟨"Minimum", "1,2", "#99ff99"⟩,
                  ⟨"Average", "2.00000,3.00000", "#99ccff"⟩,
                  ⟨"Maximum", "3,4", "#ff9999"⟩]⟩),
       ("B", ⟨2, [⟨"Minimum", "0", "#99ff99"⟩,
                  ⟨"Average", "0.00000", "#99ccff"⟩,
                  ⟨"Maximum", "0", "#ff9999"⟩]⟩)] := by
  decide

/-- Claim C9: the empty input sequence yields empty labels, an empty entity
list and empty mappings for every grouped view, with no failure. -/
theorem C9_empty_input :
    labels [] = [] ∧
      (entities_acc (initView [])).1 = [] ∧
      (trends_by_entity_acc (initView [])).1 = [] ∧
      (trends_by_sub_entity_acc (initView [])).1 = [] ∧
      (subs_by_entity_acc (initView [])).1 = [] ∧
      (minima_by_entity_acc (initView [])).1 = [] ∧
      (maxima_by_entity_acc (initView [])).1 = [] ∧
      (averages_by_entity_acc (initView [])).1 = [] := by
  exact ⟨rfl, rfl, rfl, rfl, rfl, rfl, rfl, rfl⟩

/-- Membership in the accumulated label list: a label occurs in the result of
the first `labels` loop exactly when it occurs in the accumulator or among the
records' `"HH:MM"` labels. -/
theorem labelStringsGo_mem (x : String) (l : List ViewRecord) :
    ∀ acc, x ∈ labelStringsGo acc l ↔ x ∈ acc ∨ x ∈ l.map recordLabel := by
  induction l with
  | nil => intro acc; simp [labelStringsGo]
  | cons r rest ih =>
      intro acc
      simp only [labelStringsGo, List.map_cons, List.mem_cons]
      by_cases hmem : recordLabel r ∈ acc
      · rw [if_pos hmem, ih]
        constructor
        · rintro (h | h)
          exacts [Or.inl h, Or.inr (Or.inr h)]
        · rintro (h | h | h)
          exacts [Or.inl h, Or.inl (h ▸ hmem), Or.inr h]
      · rw [if_neg hmem, ih]
        simp only [List.mem_append, List.mem_singleton]
        tauto

/-- The first `labels` loop preserves freedom from duplicates. -/
theorem labelStringsGo_nodup (l : List ViewRecord) :
    ∀ acc : List String, acc.Nodup → (labelStringsGo acc l).Nodup := by
  induction l with
  | nil => intro acc h; exact h
  | cons r rest ih =>
      intro acc h
      simp only [labelStringsGo]
      by_cases hmem : recordLabel r ∈ acc
      · rw [if_pos hmem]; exact ih acc h
      · rw [if_neg hmem]
        refine ih _ ?_
        simp [List.nodup_append, h, hmem]

/-- The second `labels` loop only attaches separators: mapping the entries
back to their labels recovers the input list. -/
theorem labelsSepGo_map_label (l : List String) :
    ∀ sep, (labelsSepGo sep l).map LabelEntry.label = l := by
  induction l with
  | nil => intro sep; rfl
  | cons x rest ih => intro sep; simp [labelsSepGo, ih]

/-- Claim C4, counterexample: on records with hours `[10, 11, 10]` (minute
buckets all 0) the `labels` property yields two labels — the third record's
pair is skipped because `"10:00"` occurred anywhere before, not merely as the
most recently seen distinct label — whereas run-length compression of the
hour/minute column yields three. -/
theorem C4_counterexample :
    labelStrings
        [⟨10, 0, "X", 0, .vInt 0, .vInt 0, .vInt 0⟩,
         ⟨11, 0, "X", 0, .vInt 0, .vInt 0, .vInt 0⟩,
         ⟨10, 0, "X", 0, .vInt 0, .vInt 0, .vInt 0⟩] = ["10:00", "11:00"] ∧
      runLengthLabels
        [⟨10, 0, "X", 0, .vInt 0, .vInt 0, .vInt 0⟩,
         ⟨11, 0, "X", 0, .vInt 0, .vInt 0, .vInt 0⟩,
         ⟨10, 0, "X", 0, .vInt 0, .vInt 0, .vInt 0⟩] = ["10:00", "11:00", "10:00"] ∧
      labelStrings
        [⟨10, 0, "X", 0, .vInt 0, .vInt 0, .vInt 0⟩,
         ⟨11, 0, "X", 0, .vInt 0, .vInt 0, .vInt 0⟩,
         ⟨10, 0, "X", 0, .vInt 0, .vInt 0, .vInt 0⟩] ≠
        runLengthLabels
        [⟨10, 0, "X", 0, .vInt 0, .vInt 0, .vInt 0⟩,
         ⟨11, 0, "X", 0, .vInt 0, .vInt 0, .vInt 0⟩,
         ⟨10, 0, "X", 0, .vInt 0, .vInt 0, .vInt 0⟩] := by
  refine ⟨by decide, by decide, by decide⟩

/-- Claim C4, amended: the `labels` property is the order-preserving global
deduplication of the successive `"HH:MM"` pairs — a pair is skipped exactly
when it occurred anywhere before (not only as the most recent distinct label):
the result has no duplicate, contains exactly the labels of the input records,
and stripping the separators recovers the deduplicated label sequence; on
records with hours `[10, 10, 11]` and minute buckets all 0 it yields exactly
`"10:00", "11:00"` (with separators `""` and `","`). -/
theorem C4_labels_dedup (data : List ViewRecord) :
    (labelStrings data).Nodup ∧
      (∀ x, x ∈ labelStrings data ↔ x ∈ data.map recordLabel) ∧
      (labels data).map LabelEntry.label = labelStrings data ∧
      labels
        [⟨10, 0, "X", 0, .vInt 0, .vInt 0, .vInt 0⟩,
         ⟨10, 0, "X", 0, .vInt 0, .vInt 0, .vInt 0⟩,
         ⟨11, 0, "X", 0, .vInt 0, .vInt 0, .vInt 0⟩] =
        [⟨"", "10:00"⟩, ⟨",", "11:00"⟩] := by
  refine ⟨labelStringsGo_nodup data [] List.nodup_nil, fun x => ?_,
    labelsSepGo_map_label _ "", by decide⟩
  rw [labelStrings, labelStringsGo_mem]
  simp

/-- Claim C5, counterexample: on a one-record input, a second access to
`minima_by_entity` performs a second full computation pass (the property has
no cache check), refuting "memoized for the lifetime of the view instance /
repeated access without recomputation"; a second access to the genuinely
memoized `trends_by_entity` performs none. -/
theorem C5_counterexample :
    ((minima_by_entity_acc
        (minima_by_entity_acc
          (initView [⟨1, 0, "A", 0, .vInt 1, .vInt 1, .vInt 1⟩])).2).2).computations = 2 ∧
      ((trends_by_entity_acc
        (trends_by_entity_acc
          (initView [⟨1, 0, "A", 0, .vInt 1, .vInt 1, .vInt 1⟩])).2).2).computations = 1 := by
  exact ⟨rfl, rfl⟩

/-- Claim C5, amended: `trends_by_entity`, `trends_by_sub_entity`,
`subs_by_entity` and `entities` are computed lazily on first access and
memoized — the second access returns the identical value and leaves the state
untouched (no recomputation). `minima_by_entity`, `maxima_by_entity` and
`averages_by_entity` are NOT memoized: every access performs a fresh full
pass, but regrouping is a pure function of the input sequence, so the repeated
access still returns the structurally identical value. -/
theorem C5_memoization (data : List ViewRecord) :
    trends_by_entity_acc (trends_by_entity_acc (initView data)).2 =
        trends_by_entity_acc (initView data) ∧
      trends_by_sub_entity_acc (trends_by_sub_entity_acc (initView data)).2 =
        trends_by_sub_entity_acc (initView data) ∧
      subs_by_entity_acc (subs_by_entity_acc (initView data)).2 =
        subs_by_entity_acc (initView data) ∧
      entities_acc (entities_acc (initView data)).2 = entities_acc (initView data) ∧
      ((minima_by_entity_acc (minima_by_entity_acc (initView data)).2).1 =
          (minima_by_entity_acc (initView data)).1 ∧
        ((minima_by_entity_acc (minima_by_entity_acc (initView data)).2).2).computations =
          ((minima_by_entity_acc (initView data)).2).computations + 1) ∧
      ((maxima_by_entity_acc (maxima_by_entity_acc (initView data)).2).1 =
          (maxima_by_entity_acc (initView data)).1 ∧
        ((maxima_by_entity_acc (maxima_by_entity_acc (initView data)).2).2).computations =
          ((maxima_by_entity_acc (initView data)).2).computations + 1) ∧
      ((averages_by_entity_acc (averages_by_entity_acc (initView data)).2).1 =
          (averages_by_entity_acc (initView data)).1 ∧
        ((averages_by_entity_acc (averages_by_entity_acc (initView data)).2).2).computations =
          ((averages_by_entity_acc (initView data)).2).computations + 1) := by
  exact ⟨rfl, rfl, rfl, rfl, ⟨rfl, rfl⟩, ⟨rfl, rfl⟩, ⟨rfl, rfl⟩⟩

/-- Claim C10: accessing `minima_by_entity`, `maxima_by_entity` or
`averages_by_entity` unconditionally reassigns the `_entities` cache, so a
subsequent `entities` read returns the group-break list `_aggregate_by_entity`
collected (which omits groups with empty `entity_id` and repeats an entity
whose records are non-contiguous) instead of the deduplicated list `entities`
returns when read first — as witnessed on `["A", "B", "A"]` (clobbered read
`["A", "B", "A"]` versus fresh read `["A", "B"]`) and on a single record with
empty `entity_id` (clobbered read `[]` versus fresh read `[""]`). -/
theorem C10_entities_clobbered (data : List ViewRecord) :
    (entities_acc (minima_by_entity_acc (initView data)).2).1 =
        (aggregate_by_entity data .minimum).2 ∧
      (entities_acc (maxima_by_entity_acc (initView data)).2).1 =
        (aggregate_by_entity data .maximum).2 ∧
      (entities_acc (averages_by_entity_acc (initView data)).2).1 =
        (aggregate_by_entity data .average).2 ∧
      (entities_acc (initView data)).1 = entity_list data ∧
      (entities_acc (minima_by_entity_acc (initView
        [⟨1, 0, "A", 0, .vInt 1, .vInt 1, .vInt 1⟩,
         ⟨2, 0, "B", 0, .vInt 2, .vInt 2, .vInt 2⟩,
         ⟨3, 0, "A", 0, .vInt 3, .vInt 3, .vInt 3⟩])).2).1 = ["A", "B", "A"] ∧
      (entities_acc (initView
        [⟨1, 0, "A", 0, .vInt 1, .vInt 1, .vInt 1⟩,
         ⟨2, 0, "B", 0, .vInt 2, .vInt 2, .vInt 2⟩,
         ⟨3, 0, "A", 0, .vInt 3, .vInt 3, .vInt 3⟩])).1 = ["A", "B"] ∧
      (entities_acc (minima_by_entity_acc (initView
        [⟨1, 0, "", 0, .vInt 1, .vInt 1, .vInt 1⟩])).2).1 = [] ∧
      (entities_acc (initView
        [⟨1, 0, "", 0, .vInt 1, .vInt 1, .vInt 1⟩])).1 = [""] := by
  exact ⟨rfl, rfl, rfl, rfl, by decide, by decide, by decide, by decide⟩

/-- Claim C3 (code bug), evaluated at the failing input: two records ordered
contiguously by `(entity_id, sub_entity_id)` — entity "A" channel 0 with
average 1.0, entity "B" channel 1 with average 2.0. The code flushes a data
set built from entity B's record (`Channel: 01`, value `2.00000`) into entity
A's chart, and then emits the same sub-entity series again in entity B's
chart, contradicting the claimed per-entity containment and uniqueness. -/
theorem C3_subs_by_entity_leak :
    subs_by_entity_pure
        [⟨10, 0, "A", 0, .vInt 1, .vInt 3, .vFloat 1⟩,
         ⟨10, 0, "B", 1, .vInt 1, .vInt 3, .vFloat 2⟩] =
      [("A", ⟨1, [⟨"Channel: 00", "1.00000", "#ff0000"⟩,
                  ⟨"Channel: 01", "2.00000", "#00ff00"⟩]⟩),
       ("B", ⟨2, [⟨"Channel: 01", "2.00000", "#ff0000"⟩]⟩)] := by
  decide

set_option maxRecDepth 8192 in
/-- Claim C2, counterexample: an attribute name that no allow-list could
contain is not rejected — `trend_overall` constructs the full query text with
the name interpolated into the `MIN`/`MAX`/`AVG` aggregates (the code contains
no validation anywhere on the path). -/
theorem C2_counterexample :
    (trend_overall ⟨2021, 7, 3⟩ 0 "not_a_known_attribute").stmt_text =
      "SELECT 't01' AS res_type, date(probe_time) as eval_date, strftime('%H',datetime(probe_time)) as grp_hour, 0 as grp_min, COUNT(1) AS num_res, MIN(not_a_known_attribute) AS min_res, MAX(not_a_known_attribute) AS max_res, AVG(ALL not_a_known_attribute) AS avg_res FROM iot_recorder_input_probe WHERE date(probe_time) = ? GROUP BY res_type, eval_date, grp_hour, grp_min ORDER BY res_type, eval_date, grp_hour, grp_min" ∧
      (trend_overall ⟨2021, 7, 3⟩ 0 "not_a_known_attribute").stmt_params = ["2021-07-03"] := by
  exact ⟨rfl, rfl⟩

set_option maxRecDepth 8192 in
/-- Claim C2, amended: no allow-list exists — every target-attribute name,
known or not, is interpolated into the query text of the three trend builders
without validation or rejection. The literal values are correctly bound: the
query text is independent of the evaluation date and of the entity and
sub-entity filter values (they only select a `?` placeholder by presence), and
the bound-parameter list is exactly the formatted date followed by the filters
that were supplied, for the builders as well as for the generator's
`overall_trend` (which passes no filter) and `sub_entity_values`. -/
theorem C2_parameterization (d d' : Date) (e e' su su' : Option String) (m : Nat)
    (tgt ent : String) (be bse : Bool)
    (he : e.isSome = e'.isSome) (hs : su.isSome = su'.isSome) :
    (trend_overall d m tgt).stmt_text = (trend_overall d' m tgt).stmt_text ∧
      (trend_entity d e m tgt).stmt_text = (trend_entity d' e' m tgt).stmt_text ∧
      (trend_sub_entity d e su m tgt).stmt_text =
        (trend_sub_entity d' e' su' m tgt).stmt_text ∧
      (trend_overall d m tgt).stmt_params = [d.strftime_ymd] ∧
      (trend_entity d e m tgt).stmt_params = [d.strftime_ymd] ++ e.toList ∧
      (trend_sub_entity d e su m tgt).stmt_params =
        [d.strftime_ymd] ++ e.toList ++ su.toList ∧
      (overall_trend tgt d m be bse).stmt_params = [d.strftime_ymd] ∧
      (sub_entity_values ent tgt d m).stmt_params = [d.strftime_ymd, ent] := by
  cases e <;> cases e' <;> cases su <;> cases su' <;> cases be <;> cases bse <;>
    simp_all [trend_overall, trend_entity, trend_sub_entity, overall_trend,
      sub_entity_values, SQLStatement.append_text, SQLStatement.append_param]

/-- Claim C2, witness for the amended theorem at concrete dates, filters and
attribute names. -/
theorem C2_parameterization_witness :
    (trend_overall ⟨2021, 7, 3⟩ 15 "value").stmt_text =
        (trend_overall ⟨2020, 1, 2⟩ 15 "value").stmt_text ∧
      (trend_entity ⟨2021, 7, 3⟩ (some "devA") 15 "value").stmt_text =
        (trend_entity ⟨2020, 1, 2⟩ (some "devB") 15 "value").stmt_text ∧
      (trend_sub_entity ⟨2021, 7, 3⟩ (some "devA") none 15 "value").stmt_text =
        (trend_sub_entity ⟨2020, 1, 2⟩ (some "devB") none 15 "value").stmt_text ∧
      (trend_overall ⟨2021, 7, 3⟩ 15 "value").stmt_params = [Date.strftime_ymd ⟨2021, 7, 3⟩] ∧
      (trend_entity ⟨2021, 7, 3⟩ (some "devA") 15 "value").stmt_params =
        [Date.strftime_ymd ⟨2021, 7, 3⟩] ++ (some "devA").toList ∧
      (trend_sub_entity ⟨2021, 7, 3⟩ (some "devA") none 15 "value").stmt_params =
        [Date.strftime_ymd ⟨2021, 7, 3⟩] ++ (some "devA").toList ++ (none : Option String).toList ∧
      (overall_trend "value" ⟨2021, 7, 3⟩ 15 true false).stmt_params =
        [Date.strftime_ymd ⟨2021, 7, 3⟩] ∧
      (sub_entity_values "dev9" "value" ⟨2021, 7, 3⟩ 15).stmt_params =
        [Date.strftime_ymd ⟨2021, 7, 3⟩, "dev9"] :=
  C2_parameterization ⟨2021, 7, 3⟩ ⟨2020, 1, 2⟩ (some "devA") (some "devB") none none
    15 "value" "dev9" true false rfl rfl

/-- Claim C7: for every bucket size `m > 0` and timestamp `t` (epoch seconds),
the minute-bucket expression of the trend queries — `m` times the floor
division by `m` of the minutes elapsed since the top of the hour — is a
multiple of `m` in `[0, 60)`; bucket 0 covers minutes `[0, m)` and bucket `m`
covers `[m, 2m)`; and the bucket depends only on the offset within the
timestamp's own hour, so a timestamp just below an hour boundary never spills
into the next hour's bucket 0. -/
theorem C7_minute_bucket (m t : Nat) (hm : 0 < m) :
    grp_min_expr m t % m = 0 ∧
      grp_min_expr m t < 60 ∧
      (t % 3600 / 60 < m → grp_min_expr m t = 0) ∧
      (m ≤ t % 3600 / 60 → t % 3600 / 60 < 2 * m → grp_min_expr m t = m) ∧
      grp_min_expr m (t % 3600) = grp_min_expr m t := by
  have hsub : t - (t - t % 3600) = t % 3600 := by omega
  have hsub2 : t % 3600 - (t % 3600 - t % 3600 % 3600) = t % 3600 := by omega
  unfold grp_min_expr
  rw [hsub, hsub2]
  refine ⟨Nat.mul_mod_right _ _, ?_, ?_, ?_, rfl⟩
  · have h1 : m * (t % 3600 / 60 / m) ≤ t % 3600 / 60 := by
      calc m * (t % 3600 / 60 / m) = t % 3600 / 60 / m * m := Nat.mul_comm _ _
        _ ≤ t % 3600 / 60 := Nat.div_mul_le_self _ _
    omega
  · intro h
    rw [Nat.div_eq_of_lt h, Nat.mul_zero]
  · intro h1 h2
    have hq : t % 3600 / 60 / m = 1 := by
      apply Nat.div_eq_of_lt_le
      · simpa using h1
      · simpa [Nat.succ_mul] using h2
    rw [hq, Nat.mul_one]

/-- Claim C7, witness at bucket size 5 and the last second of an hour
(`t = 10799`, i.e. 02:59:59). -/
theorem C7_minute_bucket_witness :
    0 < 5 ∧
      (grp_min_expr 5 10799 % 5 = 0 ∧
        grp_min_expr 5 10799 < 60 ∧
        (10799 % 3600 / 60 < 5 → grp_min_expr 5 10799 = 0) ∧
        (5 ≤ 10799 % 3600 / 60 → 10799 % 3600 / 60 < 2 * 5 → grp_min_expr 5 10799 = 5) ∧
        grp_min_expr 5 (10799 % 3600) = grp_min_expr 5 10799) :=
  ⟨by decide, C7_minute_bucket 5 10799 (by decide)⟩

/-- Claim C8: for every grouping level and every minute-bucket size (with or
without filters), the built query text ends in a `GROUP BY`/`ORDER BY` pair
over the same column list — the ORDER BY is the full grouping key, written as
bare column names with no direction qualifier, which SQL orders ascending —
and that column list, translated through the column
correspondence (dropping only the constant shape tag `res_type`), is exactly
the §3 ordering key restricted to the fields present at that level. -/
theorem C8_order_by (d : Date) (e su : Option String) (m : Nat) (tgt : String) :
    (∃ q, (trend_overall d m tgt).stmt_text =
        q ++ ("GROUP BY " ++ String.intercalate ", " overallOrderCols ++ " ") ++
          ("ORDER BY " ++ String.intercalate ", " overallOrderCols)) ∧
      overallOrderCols.filterMap colToSpecField =
        sec3OrderKey.filter (fieldPresent .overall) ∧
      (∃ q, (trend_entity d e m tgt).stmt_text =
        q ++ ("GROUP BY " ++ String.intercalate ", " entityOrderCols ++ " ") ++
          ("ORDER BY " ++ String.intercalate ", " entityOrderCols)) ∧
      entityOrderCols.filterMap colToSpecField =
        sec3OrderKey.filter (fieldPresent .by_entity) ∧
      (∃ q, (trend_sub_entity d e su m tgt).stmt_text =
        q ++ ("GROUP BY " ++ String.intercalate ", " subEntityOrderCols ++ " ") ++
          ("ORDER BY " ++ String.intercalate ", " subEntityOrderCols)) ∧
      subEntityOrderCols.filterMap colToSpecField =
        sec3OrderKey.filter (fieldPresent .by_entity_and_sub_entity) := by
  refine ⟨⟨_, rfl⟩, by decide, ?_, by decide, ?_, by decide⟩
  · rcases e with _ | ev
    · exact ⟨_, rfl⟩
    · exact ⟨_, rfl⟩
  · rcases e with _ | ev <;> rcases su with _ | sv
    · exact ⟨_, rfl⟩
    · exact ⟨_, rfl⟩
    · exact ⟨_, rfl⟩
    · exact ⟨_, rfl⟩

end IotStats
